import Mathlib

/-!
Shallow embedding of `src/app/app.py` (brain-tumor MRI Flask service).

External libraries (numpy, tensorflow, PIL, Flask) appear only at their
interfaces: the model's raw output, the random gamma draws behind
`np.random.dirichlet`, the exponential map behind `tf.nn.softmax`, and the
uint8 RGB samples produced by PIL's resize are inputs to the embedded code.
Machine floats are modelled by exact rationals `ℚ`.
-/

namespace BrainTumor

/-- `IMG_SIZE = (224, 224)` from app.py. -/
def IMG_SIZE : Nat × Nat := (224, 224)

/-- `CLASS_NAMES` from app.py. -/
def CLASS_NAMES : List String := ["glioma", "meningioma", "notumor", "pituitary"]

/-- Display metadata for one class, as stored in `CLASS_DESCRIPTIONS`. -/
structure ClassInfo where
  name : String
  description : String
  severity : String
  color : String
  icon : String

/-- `CLASS_DESCRIPTIONS` from app.py, as an association list. -/
def CLASS_DESCRIPTIONS : List (String × ClassInfo) :=
  [ ("glioma",
      ⟨"Glioma", "Tumor arising from glial cells in the brain or spinal cord.",
        "High", "#ef4444", "fas fa-brain"⟩),
    ("meningioma",
      ⟨"Meningioma",
        "Typically benign tumor arising from the meninges surrounding the brain.",
        "Medium", "#f59e0b", "fas fa-brain"⟩),
    ("notumor",
      ⟨"No Tumor", "Normal brain tissue with no evidence of tumor.",
        "Normal", "#10b981", "fas fa-check-circle"⟩),
    ("pituitary",
      ⟨"Pituitary",
        "Tumor developing in the pituitary gland at the base of the brain.",
        "Medium", "#3b82f6", "fas fa-brain"⟩) ]

/-- Lookup in `CLASS_DESCRIPTIONS` (total, defaulting for names outside the
four classes; app.py only ever indexes it with members of `CLASS_NAMES`). -/
def classInfoOf (c : String) : ClassInfo :=
  (CLASS_DESCRIPTIONS.lookup c).getD ⟨"", "", "", "", ""⟩

/-- The class name at index `i`, `CLASS_NAMES[i]` in app.py. -/
def className (i : Fin 4) : String := CLASS_NAMES.getD i.val ""

/-! ## Statistics tracking (`prediction_stats`, `update_statistics`) -/

/-- A `datetime.now()` value; only its calendar date matters to
`update_statistics` (`.date()` comparison), modelled as a day ordinal. -/
structure PyDateTime where
  day : ℤ

/-- The `prediction_stats` record. `class_distribution` is the
class-name-indexed counter mapping. -/
structure Stats where
  total_predictions : Nat
  predictions_today : Nat
  last_prediction_time : Option PyDateTime
  class_distribution : String → Nat

/-- `prediction_stats` as initialised at module load: all counters zero,
`last_prediction_time = None`. -/
def initial_stats : Stats :=
  { total_predictions := 0
    predictions_today := 0
    last_prediction_time := none
    class_distribution := fun _ => 0 }

/-- `update_statistics(predicted_class)` from app.py, with the wall clock
`now = datetime.now()` passed explicitly.  A stored datetime is always truthy
in Python, so the `if prediction_stats["last_prediction_time"]:` test is the
`Option` match.  `now.date() > last_date` is `last.day < now.day`. -/
def update_statistics (stats : Stats) (now : PyDateTime) (predicted_class : String) : Stats :=
  { total_predictions := stats.total_predictions + 1
    predictions_today :=
      match stats.last_prediction_time with
      | some last => if last.day < now.day then 1 else stats.predictions_today + 1
      | none => 1
    last_prediction_time := some now
    class_distribution := fun c =>
      if c = predicted_class then stats.class_distribution c + 1
      else stats.class_distribution c }

/-! ## Preprocessing (`preprocess_for_inference`) -/

/-- A validly decoded PIL image.  `resizedRGB` is the uint8 RGB sample grid
that PIL yields after `convert('RGB')` followed by `resize((224, 224))`:
resizing an 8-bit RGB image produces 8-bit channel values, i.e. `Fin 256`.
The interpolation itself is internal to PIL and is the modelling boundary. -/
structure DecodedImage where
  mode : String
  width : Nat
  height : Nat
  resizedRGB : Fin 224 → Fin 224 → Fin 3 → Fin 256

/-- A numpy 4-D array with its shape and dtype. -/
structure Tensor4 where
  batch : Nat
  height : Nat
  width : Nat
  channels : Nat
  dtype : String
  data : Fin batch → Fin height → Fin width → Fin channels → ℚ

/-- `preprocess_for_inference(image)` from app.py: RGB conversion and resize
(the `resizedRGB` samples), `np.array(..., dtype=np.float32)`, division by
255.0, and `np.expand_dims(..., axis=0)` giving shape `(1, 224, 224, 3)`. -/
def preprocess_for_inference (image : DecodedImage) : Tensor4 :=
  { batch := 1
    height := 224
    width := 224
    channels := 3
    dtype := "float32"
    data := fun _ i j k => ((image.resizedRGB i j k).val : ℚ) / 255 }

/-! ## Predictor (`predict_image`) -/

/-- The raw output of `model.predict`: either a 2-D batch of logits (its
first row `predictions[0]` is taken) or a 1-D vector used directly. -/
inductive RawPredictions where
  | shape2 (row : Fin 4 → ℚ)
  | shape1 (row : Fin 4 → ℚ)

/-- Outcome of preprocessing plus `model.predict` on this request: the raw
predictions, or an exception (caught by `predict_image`'s `try`). -/
inductive InferenceOutcome where
  | ok (preds : RawPredictions)
  | raise (msg : String)

/-- Per-request environment of `predict_image`: whether a model is loaded and
what its inference does, the gamma draws behind `np.random.dirichlet` used
when `model is None`, and the exponential map used by `tf.nn.softmax`. -/
structure PredictEnv where
  model : Option InferenceOutcome
  gammaDraw : Fin 4 → ℚ
  expFn : ℚ → ℚ

/-- `np.random.dirichlet(np.ones(4))`: numpy draws four Gamma(1) variates and
divides by their sum; the draws `g` are the random input. -/
def dirichlet (g : Fin 4 → ℚ) : Fin 4 → ℚ := fun i => g i / ∑ j, g j

/-- `tf.nn.softmax(row)`, with the exponential map `expFn` abstracted:
each entry is `exp(row i)` divided by the sum of the `exp(row j)`. -/
def softmax (expFn : ℚ → ℚ) (row : Fin 4 → ℚ) : Fin 4 → ℚ :=
  fun i => expFn (row i) / ∑ j, expFn (row j)

/-- One step of `np.argmax`'s scan: move to index `i` only on a strict
improvement, so the first occurrence of the maximum is kept. -/
def argStep (p : Fin 4 → ℚ) (best i : Fin 4) : Fin 4 :=
  if p best < p i then i else best

/-- `np.argmax` on a length-4 vector: left-to-right scan keeping the first
index attaining the maximum. -/
def np_argmax (p : Fin 4 → ℚ) : Fin 4 :=
  argStep p (argStep p (argStep p 0 1) 2) 3

/-- One entry of the `all_probabilities` dictionary. -/
structure ProbEntry where
  probability : ℚ
  percentage : ℚ
  info : ClassInfo

/-- The result dictionary built by `predict_image` on success. -/
structure PredictionResult where
  predicted_class : String
  confidence : ℚ
  all_probabilities : Fin 4 → ProbEntry
  class_info : ClassInfo

/-- The probability vector stored in a result's `all_probabilities`. -/
def probVec (r : PredictionResult) : Fin 4 → ℚ :=
  fun i => (r.all_probabilities i).probability

/-- The success-path tail of `predict_image`: argmax, class selection,
confidence, and the result dictionary. -/
def mkResult (probs : Fin 4 → ℚ) : PredictionResult :=
  { predicted_class := className (np_argmax probs)
    confidence := probs (np_argmax probs)
    all_probabilities := fun i =>
      { probability := probs i
        percentage := probs i * 100
        info := classInfoOf (className i) }
    class_info := classInfoOf (className (np_argmax probs)) }

/-- `predict_image(image)` from app.py.  Returns the `(result, error)` pair
and the `prediction_stats` after the call (`update_statistics` runs on the
success path only).  When `model is None` the dummy Dirichlet path runs;
a loaded model either raises (caught, yielding `(None, str(e))`) or yields
raw predictions.  A 2-D output has its first row softmaxed.  For a 1-D
output, `probs = predictions[0]` is a numpy scalar, `np.argmax` on it gives
index 0, and `float(probs[predicted_idx])` then indexes a scalar, which
raises IndexError; the `except` catches it and the pair `(None, str(e))` is
returned with the statistics untouched (the exception fires before
`update_statistics`). -/
def predict_image (env : PredictEnv) (stats : Stats) (now : PyDateTime) :
    (Option PredictionResult × Option String) × Stats :=
  match env.model with
  | none =>
      let result := mkResult (dirichlet env.gammaDraw)
      ((some result, none), update_statistics stats now result.predicted_class)
  | some (.raise msg) => ((none, some msg), stats)
  | some (.ok preds) =>
      match preds with
      | .shape2 row =>
          let result := mkResult (softmax env.expFn row)
          ((some result, none), update_statistics stats now result.predicted_class)
      | .shape1 _ =>
          ((none, some "invalid index to scalar variable."), stats)

/-! ## Upload validation and the `/predict` route -/

/-- `allowed_extensions` inside `allowed_file`. -/
def allowed_extensions : List String := ["png", "jpg", "jpeg", "gif", "bmp", "tiff"]

/-- `filename.rsplit('.', 1)[1]`: the characters after the last dot. -/
def extAfterLastDot (cs : List Char) : List Char :=
  (cs.reverse.takeWhile (fun c => c ≠ '.')).reverse

/-- `filename.rsplit('.', 1)[1].lower()`. -/
def fileExtLower (filename : String) : String :=
  String.mk ((extAfterLastDot filename.data).map Char.toLower)

/-- `allowed_file(filename)` from app.py. -/
def allowed_file (filename : String) : Bool :=
  filename.data.contains '.' && allowed_extensions.contains (fileExtLower filename)

/-- The `file` part of the multipart request: its filename and the outcome of
`Image.open` + `verify` (a decoded image, or the decode exception message). -/
structure UploadedFile where
  filename : String
  decoded : Except String DecodedImage

/-- A `POST /predict` request: `request.files` either holds a `file` field or
not. -/
structure PredictRequest where
  file : Option UploadedFile

/-- The JSON responses the `/predict` handler can produce. -/
inductive RouteResponse where
  | badRequest (error : String)
  | serverError (error : String)
  | success (result : PredictionResult) (filename : String) (statsSnapshot : Stats)

/-- Observable side steps of the handler, in order of occurrence: attempting
to decode the upload, and invoking the Predictor. -/
inductive Effect where
  | decodeAttempt
  | predictorCall

/-- The `predict` route handler from app.py: reject when no `file` field,
when the filename is empty, or when `allowed_file` fails; then decode
(400 on decode failure), then run `predict_image` (500 on error, 200 JSON on
success).  Returns the response, the statistics after the request, and the
ordered list of side steps taken. -/
def predict (env : PredictEnv) (req : PredictRequest) (stats : Stats) (now : PyDateTime) :
    RouteResponse × Stats × List Effect :=
  match req.file with
  | none => (.badRequest "No file uploaded", stats, [])
  | some file =>
      if file.filename = "" then (.badRequest "No file selected", stats, [])
      else if allowed_file file.filename = false then
        (.badRequest "File type not allowed. Please use PNG, JPG, JPEG, GIF, BMP, or TIFF",
          stats, [])
      else
        match file.decoded with
        | .error e => (.badRequest ("Invalid image file: " ++ e), stats, [.decodeAttempt])
        | .ok _image =>
            match predict_image env stats now with
            | ((resultOpt, errorOpt), statsAfter) =>
                match errorOpt with
                | some e => (.serverError e, statsAfter, [.decodeAttempt, .predictorCall])
                | none =>
                    match resultOpt with
                    | some r =>
                        (.success r file.filename statsAfter, statsAfter,
                          [.decodeAttempt, .predictorCall])
                    | none =>
                        (.serverError "", statsAfter, [.decodeAttempt, .predictorCall])

/-! ## Sequential runs -/

/-- A sequence of `update_statistics` calls (one per successful prediction),
folded left over the shared `prediction_stats`. -/
def runUpdates (stats : Stats) (events : List (PyDateTime × String)) : Stats :=
  events.foldl (fun s e => update_statistics s e.1 e.2) stats

/-- A sequence of `predict_image` calls run back to back, threading the
statistics; the second component counts the calls that returned a result. -/
def runPredictions (stats : Stats) : List (PredictEnv × PyDateTime) → Stats × Nat
  | [] => (stats, 0)
  | (env, now) :: rest =>
      let step := predict_image env stats now
      let next := runPredictions step.2 rest
      (next.1, (if ((step.1).1).isSome then 1 else 0) + next.2)

/-- Sum of `class_distribution` over the four class names. -/
def distSum (s : Stats) : Nat := (CLASS_NAMES.map s.class_distribution).sum

/-! ## Concrete inputs used by witnesses and counterexamples -/

/-- A fixed wall-clock date. -/
def dateW : PyDateTime := ⟨0⟩

/-- Dummy-model environment: no model loaded, gamma draws `1, 2, 3, 4`. -/
def envW : PredictEnv :=
  { model := none
    gammaDraw := fun i => (i.val + 1 : ℚ)
    expFn := fun _ => 1 }

/-- The result `predict_image` produces in environment `envW`. -/
def resW : PredictionResult :=
  (((predict_image envW initial_stats dateW).1).1).getD (mkResult fun _ => 0)

/-- A concrete 1-D model output row. -/
def row1D : Fin 4 → ℚ := fun i => if i = 0 then 2 else 0

/-- Environment whose loaded model emits the 1-D output `row1D`. -/
def envC2 : PredictEnv :=
  { model := some (.ok (.shape1 row1D))
    gammaDraw := fun _ => 1
    expFn := fun _ => 1 }

/-- A statistics state whose last prediction was on day 5. -/
def statsY : Stats :=
  { total_predictions := 3
    predictions_today := 2
    last_prediction_time := some ⟨5⟩
    class_distribution := fun _ => 0 }

/-- A request with no `file` field. -/
def reqNone : PredictRequest := ⟨none⟩

/-- A concrete validly decoded image (all-black 10 by 10 RGB). -/
def imgW : DecodedImage := ⟨"RGB", 10, 10, fun _ _ _ => 0⟩

/-- An upload whose filename has a disallowed extension. -/
def fileTxt : UploadedFile := ⟨"scan.txt", .ok imgW⟩

/-- A request carrying `fileTxt`. -/
def reqTxt : PredictRequest := ⟨some fileTxt⟩

/-- An upload whose filename has no dot but whose content decodes fine. -/
def fileNoDot : UploadedFile := ⟨"README", .ok imgW⟩

/-- A request carrying `fileNoDot`. -/
def reqNoDot : PredictRequest := ⟨some fileNoDot⟩

/-- A concrete event list for the statistics invariant. -/
def eventsW : List (PyDateTime × String) := [(⟨0⟩, "glioma"), (⟨1⟩, "notumor")]

/-! ## Helper lemmas -/

lemma argStep_le_left (p : Fin 4 → ℚ) (best i : Fin 4) : p best ≤ p (argStep p best i) := by
  unfold argStep
  split_ifs with h
  · exact le_of_lt h
  · exact le_rfl

lemma argStep_le_right (p : Fin 4 → ℚ) (best i : Fin 4) : p i ≤ p (argStep p best i) := by
  unfold argStep
  split_ifs with h
  · exact le_rfl
  · exact le_of_not_lt h

lemma np_argmax_le (p : Fin 4 → ℚ) : ∀ i, p i ≤ p (np_argmax p) := by
  have h0 : p 0 ≤ p (np_argmax p) :=
    le_trans (le_trans (argStep_le_left p 0 1) (argStep_le_left p _ 2)) (argStep_le_left p _ 3)
  have h1 : p 1 ≤ p (np_argmax p) :=
    le_trans (le_trans (argStep_le_right p 0 1) (argStep_le_left p _ 2)) (argStep_le_left p _ 3)
  have h2 : p 2 ≤ p (np_argmax p) :=
    le_trans (argStep_le_right p _ 2) (argStep_le_left p _ 3)
  have h3 : p 3 ≤ p (np_argmax p) := argStep_le_right p _ 3
  intro i
  fin_cases i
  · exact h0
  · exact h1
  · exact h2
  · exact h3

lemma probVec_mk (probs : Fin 4 → ℚ) : probVec (mkResult probs) = probs := rfl

lemma mkResult_argmax (probs : Fin 4 → ℚ) :
    (mkResult probs).predicted_class = className (np_argmax (probVec (mkResult probs))) ∧
    (mkResult probs).confidence = probVec (mkResult probs) (np_argmax (probVec (mkResult probs))) ∧
    ∀ i, probVec (mkResult probs) i ≤
      probVec (mkResult probs) (np_argmax (probVec (mkResult probs))) := by
  rw [probVec_mk]
  exact ⟨rfl, rfl, np_argmax_le probs⟩

/-- On success, `predict_image` returns `some (mkResult probs)` for the probs
it computed; this extracts that shape. -/
lemma predict_image_some (env : PredictEnv) (stats : Stats) (now : PyDateTime)
    (r : PredictionResult) (h : ((predict_image env stats now).1).1 = some r) :
    ∃ probs : Fin 4 → ℚ, r = mkResult probs := by
  rcases hm : env.model with _ | outcome
  · refine ⟨dirichlet env.gammaDraw, ?_⟩
    simp [predict_image, hm] at h
    exact h.symm
  · rcases outcome with preds | msg
    · rcases preds with row | row
      · refine ⟨softmax env.expFn row, ?_⟩
        simp [predict_image, hm] at h
        exact h.symm
      · simp [predict_image, hm] at h
    · simp [predict_image, hm] at h

/-- Each path of `predict_image` either succeeds (bumping `total_predictions`
by one via `update_statistics`) or fails (leaving the statistics untouched). -/
lemma predict_image_cases (env : PredictEnv) (stats : Stats) (now : PyDateTime) :
    (((predict_image env stats now).1).1.isSome = true ∧
      (predict_image env stats now).2.total_predictions = stats.total_predictions + 1) ∨
    (((predict_image env stats now).1).1.isSome = false ∧
      (predict_image env stats now).2 = stats) := by
  rcases hm : env.model with _ | outcome
  · left
    constructor
    · simp [predict_image, hm]
    · simp [predict_image, hm, update_statistics]
  · rcases outcome with preds | msg
    · rcases preds with row | row
      · left
        constructor
        · simp [predict_image, hm]
        · simp [predict_image, hm, update_statistics]
      · right
        constructor
        · simp [predict_image, hm]
        · simp [predict_image, hm]
    · right
      constructor
      · simp [predict_image, hm]
      · simp [predict_image, hm]

lemma runPredictions_cons (stats : Stats) (env : PredictEnv) (now : PyDateTime)
    (tl : List (PredictEnv × PyDateTime)) :
    runPredictions stats ((env, now) :: tl) =
      ((runPredictions (predict_image env stats now).2 tl).1,
        (if (((predict_image env stats now).1).1).isSome then 1 else 0)
          + (runPredictions (predict_image env stats now).2 tl).2) := rfl

/-! ## Claim theorems -/

/-- C1: whenever `predict_image` returns a result, the predicted class is the
class at the argmax index of the 4-element probability vector carried in the
result, the reported confidence is the probability at that index, and that
index indeed attains the maximum of the vector. -/
theorem predict_image_argmax_correct (env : PredictEnv) (stats : Stats) (now : PyDateTime)
    (r : PredictionResult) (h : ((predict_image env stats now).1).1 = some r) :
    r.predicted_class = className (np_argmax (probVec r)) ∧
    r.confidence = probVec r (np_argmax (probVec r)) ∧
    ∀ i, probVec r i ≤ probVec r (np_argmax (probVec r)) := by
  obtain ⟨probs, rfl⟩ := predict_image_some env stats now r h
  exact mkResult_argmax probs

/-- C1 witness: in the concrete dummy-model environment `envW`,
`predict_image` returns `resW` and the argmax relations hold for it. -/
theorem predict_image_argmax_correct_witness :
    ((predict_image envW initial_stats dateW).1).1 = some resW ∧
    resW.predicted_class = className (np_argmax (probVec resW)) ∧
    resW.confidence = probVec resW (np_argmax (probVec resW)) ∧
    probVec resW 0 ≤ probVec resW (np_argmax (probVec resW)) :=
  ⟨rfl,
    (predict_image_argmax_correct envW initial_stats dateW resW rfl).1,
    (predict_image_argmax_correct envW initial_stats dateW resW rfl).2.1,
    (predict_image_argmax_correct envW initial_stats dateW resW rfl).2.2 0⟩

/-- C6: `predict_image` never sets both components of its `(result, error)`
pair: on success the error is `None`, and on a caught exception the result is
`None` (no partial result). -/
theorem predict_image_result_error_exclusive (env : PredictEnv) (stats : Stats)
    (now : PyDateTime) :
    ((((predict_image env stats now).1).1).isSome = true ∧
      ((predict_image env stats now).1).2 = none) ∨
    (((predict_image env stats now).1).1 = none ∧
      (((predict_image env stats now).1).2).isSome = true) := by
  rcases hm : env.model with _ | outcome
  · left
    constructor <;> simp [predict_image, hm]
  · rcases outcome with preds | msg
    · rcases preds with row | row
      · left
        constructor <;> simp [predict_image, hm]
      · right
        constructor <;> simp [predict_image, hm]
    · right
      constructor <;> simp [predict_image, hm]

/-- C4: `update_statistics` sets `predictions_today` to 1 when
`last_prediction_time` is unset or its calendar date is strictly before
today's date, and increments it by 1 otherwise. -/
theorem update_statistics_predictions_today (stats : Stats) (now : PyDateTime) (c : String) :
    ((stats.last_prediction_time = none ∨
        ∃ last, stats.last_prediction_time = some last ∧ last.day < now.day) →
      (update_statistics stats now c).predictions_today = 1) ∧
    (∀ last, stats.last_prediction_time = some last → ¬ last.day < now.day →
      (update_statistics stats now c).predictions_today = stats.predictions_today + 1) := by
  constructor
  · rintro (hnone | ⟨last, hlast, hlt⟩)
    · simp [update_statistics, hnone]
    · simp [update_statistics, hlast, hlt]
  · intro last hlast hnlt
    simp [update_statistics, hlast, hnlt]

/-- C4 witness: with the last prediction on day 5 and today day 6 the daily
counter resets to 1; with today also day 5 it increments from 2 to 3. -/
theorem update_statistics_predictions_today_witness :
    (update_statistics statsY ⟨6⟩ "glioma").predictions_today = 1 ∧
    (update_statistics statsY ⟨5⟩ "glioma").predictions_today = 3 :=
  ⟨(update_statistics_predictions_today statsY ⟨6⟩ "glioma").1
      (Or.inr ⟨⟨5⟩, rfl, by norm_num⟩),
    (update_statistics_predictions_today statsY ⟨5⟩ "glioma").2 ⟨5⟩ rfl (by norm_num)⟩

/-- C3: for every validly decoded image, `preprocess_for_inference` returns
an array of shape `(1, 224, 224, 3)`, dtype float32, with every element in
the closed interval `[0, 1]`. -/
theorem preprocess_for_inference_shape_range (image : DecodedImage) :
    (preprocess_for_inference image).batch = 1 ∧
    (preprocess_for_inference image).height = 224 ∧
    (preprocess_for_inference image).width = 224 ∧
    (preprocess_for_inference image).channels = 3 ∧
    (preprocess_for_inference image).dtype = "float32" ∧
    ∀ (b : Fin (preprocess_for_inference image).batch)
      (i : Fin (preprocess_for_inference image).height)
      (j : Fin (preprocess_for_inference image).width)
      (k : Fin (preprocess_for_inference image).channels),
      0 ≤ (preprocess_for_inference image).data b i j k ∧
        (preprocess_for_inference image).data b i j k ≤ 1 := by
  refine ⟨rfl, rfl, rfl, rfl, rfl, ?_⟩
  intro b i j k
  show 0 ≤ ((image.resizedRGB i j k).val : ℚ) / 255 ∧
    ((image.resizedRGB i j k).val : ℚ) / 255 ≤ 1
  have hlt : (image.resizedRGB i j k).val < 256 := (image.resizedRGB i j k).isLt
  have hle : ((image.resizedRGB i j k).val : ℚ) ≤ 255 := by
    have : (image.resizedRGB i j k).val ≤ 255 := by omega
    exact_mod_cast this
  constructor
  · positivity
  · rw [div_le_one (by norm_num : (0:ℚ) < 255)]
    linarith

lemma sum_dirichlet (g : Fin 4 → ℚ) (hg : ∀ i, 0 < g i) : ∑ i, dirichlet g i = 1 := by
  have hpos : 0 < ∑ j, g j := Finset.sum_pos (fun i _ => hg i) ⟨0, Finset.mem_univ 0⟩
  unfold dirichlet
  rw [← Finset.sum_div]
  exact div_self (ne_of_gt hpos)

lemma sum_softmax (expFn : ℚ → ℚ) (row : Fin 4 → ℚ) (he : ∀ x, 0 < expFn x) :
    ∑ i, softmax expFn row i = 1 := by
  have hpos : 0 < ∑ j, expFn (row j) :=
    Finset.sum_pos (fun i _ => he (row i)) ⟨0, Finset.mem_univ 0⟩
  unfold softmax
  rw [← Finset.sum_div]
  exact div_self (ne_of_gt hpos)

/-- On a 1-D model output (here `row1D`), `predict_image` never produces a
probability vector: `predictions[0]` is a numpy scalar, indexing it raises,
and the caught exception yields the error pair with statistics untouched. -/
lemma predict_image_shape1_raises :
    ((predict_image envC2 initial_stats dateW).1).1 = none ∧
    ((predict_image envC2 initial_stats dateW).1).2 =
      some "invalid index to scalar variable." ∧
    (predict_image envC2 initial_stats dateW).2 = initial_stats :=
  ⟨rfl, rfl, rfl⟩

/-- C2: every probability vector carried in a result returned by
`predict_image` sums to exactly 1, hence to 1 within `1e-5`.  The Dirichlet
fallback and the softmax of a 2-D output are normalized divisions (the
positivity hypotheses hold for the real gamma draws and exponential map); a
1-D model output never yields a result at all, since `probs = predictions[0]`
is then a numpy scalar and `float(probs[predicted_idx])` raises, so that path
returns `(None, error)`. -/
theorem predict_image_sum (env : PredictEnv) (stats : Stats) (now : PyDateTime)
    (r : PredictionResult)
    (hg : ∀ i, 0 < env.gammaDraw i)
    (he : ∀ x, 0 < env.expFn x)
    (h : ((predict_image env stats now).1).1 = some r) :
    ∑ i, probVec r i = 1 := by
  rcases hm : env.model with _ | outcome
  · simp [predict_image, hm] at h
    rw [← h, probVec_mk]
    exact sum_dirichlet env.gammaDraw hg
  · rcases outcome with preds | msg
    · rcases preds with row | row
      · simp [predict_image, hm] at h
        rw [← h, probVec_mk]
        exact sum_softmax env.expFn row he
      · simp [predict_image, hm] at h
    · simp [predict_image, hm] at h

/-- C2 witness: in the dummy-model environment `envW` (gamma draws
`1, 2, 3, 4`), the produced probability vector sums to 1. -/
theorem predict_image_sum_witness : ∑ i, probVec resW i = 1 :=
  predict_image_sum envW initial_stats dateW resW
    (by intro i; fin_cases i <;> norm_num [envW])
    (fun x => by norm_num [envW]) rfl

/-- C5: after any sequence of `predict_image` calls run back to back,
`total_predictions` equals its initial value plus the number of successful
predictions in the sequence. -/
theorem total_predictions_after_run (stats : Stats) (runs : List (PredictEnv × PyDateTime)) :
    (runPredictions stats runs).1.total_predictions =
      stats.total_predictions + (runPredictions stats runs).2 := by
  induction runs generalizing stats with
  | nil => rfl
  | cons hd tl ih =>
    obtain ⟨env, now⟩ := hd
    rw [runPredictions_cons]
    rcases predict_image_cases env stats now with ⟨h1, h2⟩ | ⟨h1, h2⟩
    · have hrec := ih (predict_image env stats now).2
      rw [h1]
      simp only [if_true]
      omega
    · have hrec := ih (predict_image env stats now).2
      rw [h1]
      simp only [Bool.false_eq_true, if_false]
      rw [h2]
      rw [h2] at hrec
      omega

/-- C7: a `POST /predict` request with no `file` field gets a 400 response
with error body "No file uploaded", the statistics are unchanged, and no
side step (decode attempt or Predictor call) is taken. -/
theorem predict_route_no_file (env : PredictEnv) (req : PredictRequest) (stats : Stats)
    (now : PyDateTime) (h : req.file = none) :
    predict env req stats now = (.badRequest "No file uploaded", stats, []) := by
  simp [predict, h]

/-- C7 witness: the concrete fileless request is rejected with statistics
untouched and no effects. -/
theorem predict_route_no_file_witness :
    predict envW reqNone initial_stats dateW =
      (.badRequest "No file uploaded", initial_stats, []) :=
  predict_route_no_file envW reqNone initial_stats dateW rfl

/-- C8: when the uploaded filename's lowercased extension is not among
png, jpg, jpeg, gif, bmp, tiff, the handler responds 400 with the message
naming the disallowed file type, with no decode attempt, no Predictor call,
and unchanged statistics. -/
theorem predict_route_bad_extension (env : PredictEnv) (req : PredictRequest) (stats : Stats)
    (now : PyDateTime) (f : UploadedFile)
    (hf : req.file = some f) (hne : f.filename ≠ "")
    (hext : allowed_extensions.contains (fileExtLower f.filename) = false) :
    allowed_file f.filename = false ∧
    predict env req stats now =
      (.badRequest "File type not allowed. Please use PNG, JPG, JPEG, GIF, BMP, or TIFF",
        stats, []) := by
  have hal : allowed_file f.filename = false := by
    unfold allowed_file
    rw [hext, Bool.and_false]
  refine ⟨hal, ?_⟩
  simp [predict, hf, hne, hal]

/-- C8 witness: the concrete upload named "scan.txt" is rejected with the
file-type message, unchanged statistics and no effects. -/
theorem predict_route_bad_extension_witness :
    allowed_file fileTxt.filename = false ∧
    predict envW reqTxt initial_stats dateW =
      (.badRequest "File type not allowed. Please use PNG, JPG, JPEG, GIF, BMP, or TIFF",
        initial_stats, []) :=
  predict_route_bad_extension envW reqTxt initial_stats dateW fileTxt rfl
    (by decide) (by decide)

/-- C10: a filename containing no dot makes `allowed_file` return false, so a
non-empty upload with such a filename is rejected with the 400 file-type
error even when its content is a validly decodable image (no decode attempt,
no Predictor call, unchanged statistics). -/
theorem predict_route_no_dot_rejected (env : PredictEnv) (req : PredictRequest) (stats : Stats)
    (now : PyDateTime) (f : UploadedFile) (image : DecodedImage)
    (hf : req.file = some f) (hne : f.filename ≠ "")
    (hdot : f.filename.data.contains '.' = false)
    (_hdec : f.decoded = .ok image) :
    allowed_file f.filename = false ∧
    predict env req stats now =
      (.badRequest "File type not allowed. Please use PNG, JPG, JPEG, GIF, BMP, or TIFF",
        stats, []) := by
  have hal : allowed_file f.filename = false := by
    unfold allowed_file
    rw [hdot, Bool.false_and]
  refine ⟨hal, ?_⟩
  simp [predict, hf, hne, hal]

/-- C10 witness: the dotless upload named "README" with decodable content is
rejected with the file-type error. -/
theorem predict_route_no_dot_rejected_witness :
    allowed_file fileNoDot.filename = false ∧
    predict envW reqNoDot initial_stats dateW =
      (.badRequest "File type not allowed. Please use PNG, JPG, JPEG, GIF, BMP, or TIFF",
        initial_stats, []) :=
  predict_route_no_dot_rejected envW reqNoDot initial_stats dateW fileNoDot imgW rfl
    (by decide) (by decide) rfl

/-! ## Statistics invariant (C9) -/

/-- The invariant: `total_predictions` equals the sum of the per-class
distribution, and `predictions_today` never exceeds `total_predictions`. -/
def StatsInv (s : Stats) : Prop :=
  s.total_predictions = distSum s ∧ s.predictions_today ≤ s.total_predictions

lemma map_sum_bump (l : List String) (f : String → Nat) (c : String) :
    (l.map (fun x => if x = c then f x + 1 else f x)).sum = (l.map f).sum + l.count c := by
  induction l with
  | nil => simp
  | cons a t ih =>
    by_cases h : a = c
    · subst h
      simp [ih, List.count_cons]
      omega
    · simp [h, ih, List.count_cons]
      omega

lemma count_class_names (c : String) (hc : c ∈ CLASS_NAMES) : CLASS_NAMES.count c = 1 := by
  simp [CLASS_NAMES] at hc
  rcases hc with rfl | rfl | rfl | rfl <;> decide

lemma distSum_update (s : Stats) (now : PyDateTime) (c : String) (hc : c ∈ CLASS_NAMES) :
    distSum (update_statistics s now c) = distSum s + 1 := by
  unfold distSum update_statistics
  simp only []
  rw [show (CLASS_NAMES.map fun x =>
        if x = c then s.class_distribution x + 1 else s.class_distribution x).sum
      = (CLASS_NAMES.map s.class_distribution).sum + CLASS_NAMES.count c
    from map_sum_bump CLASS_NAMES s.class_distribution c]
  rw [count_class_names c hc]

lemma update_preserves_inv (s : Stats) (now : PyDateTime) (c : String)
    (hc : c ∈ CLASS_NAMES) (h : StatsInv s) : StatsInv (update_statistics s now c) := by
  obtain ⟨h1, h2⟩ := h
  constructor
  · rw [distSum_update s now c hc]
    simp only [update_statistics]
    omega
  · simp only [update_statistics]
    rcases s.last_prediction_time with _ | last
    · simp
    · by_cases hd : last.day < now.day
      · simp [hd]
      · simp [hd]
        omega

lemma runUpdates_inv (events : List (PyDateTime × String)) :
    ∀ s : Stats, StatsInv s → (∀ e ∈ events, e.2 ∈ CLASS_NAMES) →
      StatsInv (runUpdates s events) := by
  induction events with
  | nil => intro s hs _; exact hs
  | cons e t ih =>
    intro s hs hc
    have hstep : StatsInv (update_statistics s e.1 e.2) :=
      update_preserves_inv s e.1 e.2 (hc e (List.mem_cons_self e t)) hs
    exact ih (update_statistics s e.1 e.2) hstep
      (fun x hx => hc x (List.mem_cons_of_mem e hx))

/-- C9: starting from the initial statistics, after any sequence of
`update_statistics` calls whose class arguments come from `CLASS_NAMES`,
`total_predictions` equals the sum of `class_distribution` over the four
classes, and `predictions_today` is at most `total_predictions`. -/
theorem stats_invariant_after_runUpdates (events : List (PyDateTime × String))
    (hc : ∀ e ∈ events, e.2 ∈ CLASS_NAMES) :
    (runUpdates initial_stats events).total_predictions =
      distSum (runUpdates initial_stats events) ∧
    (runUpdates initial_stats events).predictions_today ≤
      (runUpdates initial_stats events).total_predictions := by
  have hinit : StatsInv initial_stats := by
    constructor
    · decide
    · decide
  exact runUpdates_inv events initial_stats hinit hc

/-- C9 witness: after the concrete two-event run `eventsW` the invariant
holds. -/
theorem stats_invariant_after_runUpdates_witness :
    (runUpdates initial_stats eventsW).total_predictions =
      distSum (runUpdates initial_stats eventsW) ∧
    (runUpdates initial_stats eventsW).predictions_today ≤
      (runUpdates initial_stats eventsW).total_predictions :=
  stats_invariant_after_runUpdates eventsW (by decide)

end BrainTumor
